import Mathlib

/-!
Shallow embedding of `beetsplug/fetchart/itunes.py`, an iTunes Store
search/lookup client.  JSON scalar values are modelled by `ITunes.JVal`
(numbers as rationals), a JSON record by an association list, and Python
exceptions by an explicit `ITunes.PyError` value threaded through `Except`.
The HTTP transport is abstracted as an oracle mapping a lookup query to the
parsed response envelope; everything after parsing is embedded faithfully,
including the loop variable `id` of `_BaseObject.get` that persists across
iterations of the result loop.
-/

namespace ITunes

/-- A JSON scalar value as produced by Python's `json.loads` (Python `None`
and JSON `null` coincide).  Numbers are modelled as rationals. -/
inductive JVal where
  | null
  | bool (b : Bool)
  | num (q : ℚ)
  | str (s : String)
  deriving DecidableEq, Inhabited

/-- A JSON object (one record of the `results` array): an association list
from keys to scalar values, looked up first-match like a Python dict. -/
abbrev Json := List (String × JVal)

/-- `j.get(k)` without default: `some v` iff the key is present. -/
def jget (j : Json) (k : String) : Option JVal :=
  (j.find? (fun p => p.1 == k)).map (fun p => p.2)

/-- Python truthiness of a JSON scalar (`None`, `0`, `""`, `False` are falsy). -/
def JVal.truthy : JVal → Bool
  | .null => false
  | .bool b => b
  | .num q => q ≠ 0
  | .str s => s ≠ ""

/-- Python exceptions raised by the module: `ServiceException(type, message)`
(the `type` tag is always the string `"Error"` in this code), plus the
built-in `KeyError`, `NameError`, `AttributeError` and `TypeError`. -/
inductive PyError where
  | serviceException (t : String) (msg : JVal)
  | keyError (k : String)
  | nameError (n : String)
  | attributeError (a : String)
  | typeError (m : String)
  deriving DecidableEq, Inhabited

instance {ε α : Type _} [DecidableEq ε] [DecidableEq α] :
    DecidableEq (Except ε α) := fun x y =>
  match x, y with
  | .ok a, .ok b =>
    if h : a = b then isTrue (by rw [h])
    else isFalse (fun hc => h (Except.ok.inj hc))
  | .error a, .error b =>
    if h : a = b then isTrue (by rw [h])
    else isFalse (fun hc => h (Except.error.inj hc))
  | .ok _, .error _ => isFalse (fun hc => Except.noConfusion hc)
  | .error _, .ok _ => isFalse (fun hc => Except.noConfusion hc)

/-- Python's `round(x, n)` on our rational model: round half to even at the
`n`-th decimal digit.  Written on the numerator/denominator so the kernel
can evaluate it: `x * 10^n` is `m / d` with `m = x.num * 10^n` and
`d = x.den > 0`; its floor is `q = m.fdiv d` with remainder fraction
`r / d`, which is compared against `1/2` as `2*r` against `d`; exact ties
go to the even neighbour; the rounded integer is placed back over `10^n`. -/
def pyRound (x : ℚ) (n : ℕ) : ℚ :=
  let m : ℤ := x.num * ((10 ^ n : ℕ) : ℤ)
  let d : ℤ := (x.den : ℤ)
  let q : ℤ := Int.fdiv m d
  let r : ℤ := m - q * d
  let z : ℤ :=
    if 2 * r < d then q
    else if d < 2 * r then q + 1
    else if q % 2 = 0 then q else q + 1
  mkRat z (10 ^ n)

/-- Division of a rational by a positive integer constant (Python's
`x / 1000.0`), again on the numerator/denominator so the kernel can
evaluate it. -/
def ratDiv (a : ℚ) (m : ℕ) : ℚ := mkRat a.num (a.den * m)

/-- Attribute state of an `Item` after `Item.__init__` + `Item._set`:
`id` from the constructor; `name`/`url` initialised to `None` by
`__init__`; the remaining fields assigned by `_set` and its helpers. -/
structure ItemFields where
  id : JVal
  json : Json
  type : JVal
  name : JVal
  url : JVal
  genre : JVal
  release_date : JVal
  country_store : JVal
  artwork : List (String × JVal)
  deriving DecidableEq, Inhabited

/-- `Artist` after `Artist._set`: the `Item` fields plus `amg_id`
(`name` and `url` are overwritten by `Artist._set`). -/
structure ArtistData extends ItemFields where
  amg_id : JVal
  deriving DecidableEq, Inhabited

/-- `Album` after `Album._set`: the `Item` fields plus collection data;
`artist` is `none` for Python `None`, `some` for a populated `Artist`. -/
structure AlbumData extends ItemFields where
  amg_id : JVal
  price : JVal
  price_currency : JVal
  track_count : JVal
  copyright : JVal
  artist : Option ArtistData
  deriving DecidableEq, Inhabited

/-- The `album` attribute of a `Track` as left by `Track._set`:
`unset` when `_set_album` never assigns it (no `collectionId` key),
`pyNone` when the `except KeyError` handler assigns `None`,
`set` when a populated `Album` is assigned. -/
inductive AlbumAttr where
  | unset
  | pyNone
  | set (a : AlbumData)
  deriving DecidableEq, Inhabited

/-- `Track` after `Track._set`. -/
structure TrackData extends ItemFields where
  preview_url : JVal
  price : JVal
  number : JVal
  duration : JVal
  artist : Option ArtistData
  album : AlbumAttr
  deriving DecidableEq, Inhabited

/-- A constructed result object: one of the four variants built by
`_BaseObject.get`. -/
inductive PyObj where
  | item (d : ItemFields)
  | artist (d : ArtistData)
  | album (d : AlbumData)
  | track (d : TrackData)
  deriving DecidableEq, Inhabited

/-- The `id` attribute, present on every variant. -/
def PyObj.pyId : PyObj → JVal
  | .item d => d.id
  | .artist d => d.id
  | .album d => d.id
  | .track d => d.id

/-- The `type` attribute, present on every variant after `_set`. -/
def PyObj.pyType : PyObj → JVal
  | .item d => d.type
  | .artist d => d.type
  | .album d => d.type
  | .track d => d.type

/-- `Item._set_genre`: `json.get('primaryGenreName', None)`. -/
def Item._set_genre (j : Json) : JVal :=
  (jget j "primaryGenreName").getD .null

/-- `Item._set_release`: `None`, unless `releaseDate` is present and truthy,
in which case the date part before `'T'` (a non-string value would fail with
`AttributeError` on `.split`). -/
def Item._set_release (j : Json) : Except PyError JVal :=
  match jget j "releaseDate" with
  | some v =>
      if v.truthy then
        match v with
        | .str s => .ok (.str ((s.splitOn "T").headD ""))
        | _ => .error (.attributeError "split")
      else .ok .null
  | none => .ok .null

/-- `Item._set_country`: `json.get('country', None)`. -/
def Item._set_country (j : Json) : JVal :=
  (jget j "country").getD .null

/-- `Item._set_artwork`: a dict with keys only for the sizes present. -/
def Item._set_artwork (j : Json) : List (String × JVal) :=
  (match jget j "artworkUrl30" with | some v => [("30", v)] | none => [])
  ++ (match jget j "artworkUrl60" with | some v => [("60", v)] | none => [])
  ++ (match jget j "artworkUrl100" with | some v => [("100", v)] | none => [])
  ++ (match jget j "artworkUrl512" with | some v => [("512", v)] | none => [])
  ++ (match jget j "artworkUrl1100" with | some v => [("1100", v)] | none => [])

/-- `Item._set_url`: `trackViewUrl`, else `collectionViewUrl`, else
`artistViewUrl`, else `None`. -/
def Item._set_url (j : Json) : JVal :=
  match jget j "trackViewUrl" with
  | some v => v
  | none =>
    match jget j "collectionViewUrl" with
    | some v => v
    | none =>
      match jget j "artistViewUrl" with
      | some v => v
      | none => .null

/-- `Item._set(json)` on a freshly constructed `Item(id)`: stores the record,
sets `type` from `kind` if present else `wrapperType` (raising `KeyError`
when both are absent), then the genre/release/country/artwork/url helpers.
`name` stays `None` as left by `__init__`. -/
def Item._set (id : JVal) (j : Json) : Except PyError ItemFields :=
  match (match jget j "kind" with
         | some v => some v
         | none => jget j "wrapperType") with
  | none => .error (.keyError "wrapperType")
  | some type =>
    match Item._set_release j with
    | .error e => .error e
    | .ok release =>
      .ok
        { id := id
          json := j
          type := type
          name := .null
          url := Item._set_url j
          genre := Item._set_genre j
          release_date := release
          country_store := Item._set_country j
          artwork := Item._set_artwork j }

/-- `Artist._set(json)`: the `Item` fields, then `name = json['artistName']`
(`KeyError` when absent), `amg_id = json.get('amgArtistId')`, and `url`
from `artistViewUrl` else `artistLinkUrl` else `None`. -/
def Artist._set (id : JVal) (j : Json) : Except PyError ArtistData :=
  match Item._set id j with
  | .error e => .error e
  | .ok base =>
    match jget j "artistName" with
    | none => .error (.keyError "artistName")
    | some name =>
      .ok
        { base with
          name := name
          amg_id := (jget j "amgArtistId").getD .null
          url := (jget j "artistViewUrl").getD
                   ((jget j "artistLinkUrl").getD .null) }

/-- `Album._set_artist` / `Track._set_artist` (identical bodies):
`artist = None`; when `json.get('artistId')` is truthy, a populated
`Artist` — a `KeyError` inside `Artist._set` is NOT caught here and
propagates to the caller. -/
def Album._set_artist (j : Json) : Except PyError (Option ArtistData) :=
  match jget j "artistId" with
  | some v =>
      if v.truthy then
        match Artist._set v j with
        | .ok a => .ok (some a)
        | .error e => .error e
      else .ok none
  | none => .ok none

/-- `Album._set(json)`: the `Item` fields, then `name = json['collectionName']`,
`url`, `amg_id`, `price = round(json.get('collectionPrice', 0) or 0, 4)`
(a truthy non-numeric price fails with `TypeError` in `round`),
`price_currency = json['currency']`, `track_count = json['trackCount']`,
`copyright`, and the owned artist. -/
def Album._set (id : JVal) (j : Json) : Except PyError AlbumData :=
  match Item._set id j with
  | .error e => .error e
  | .ok base =>
    match jget j "collectionName" with
    | none => .error (.keyError "collectionName")
    | some name =>
      let rawPrice := (jget j "collectionPrice").getD (.num 0)
      match (if rawPrice.truthy then rawPrice else .num 0 : JVal) with
      | .num q =>
        match jget j "currency" with
        | none => .error (.keyError "currency")
        | some currency =>
          match jget j "trackCount" with
          | none => .error (.keyError "trackCount")
          | some trackCount =>
            match Album._set_artist j with
            | .error e => .error e
            | .ok artist =>
              .ok
                { base with
                  name := name
                  url := (jget j "collectionViewUrl").getD .null
                  amg_id := (jget j "amgAlbumId").getD .null
                  price := .num (pyRound q 4)
                  price_currency := currency
                  track_count := trackCount
                  copyright := (jget j "copyright").getD .null
                  artist := artist }
      | _ => .error (.typeError "round")

/-- `Track._set(json)`: the `Item` fields, then track data; `_set_artist`
and `_set_album` each run under `try/except KeyError`.  `_set_album`
assigns nothing when `collectionId` is absent (the attribute stays unset),
a populated `Album` on success, and `None` when populating it raises
`KeyError`; a non-`KeyError` exception propagates. -/
def Track._set (id : JVal) (j : Json) : Except PyError TrackData :=
  match Item._set id j with
  | .error e => .error e
  | .ok base =>
    match jget j "trackName" with
    | none => .error (.keyError "trackName")
    | some name =>
      match (match jget j "trackPrice" with
             | some .null => Except.ok JVal.null
             | some (.num q) => Except.ok (JVal.num (pyRound q 4))
             | some _ => Except.error (PyError.typeError "round")
             | none => Except.ok JVal.null) with
      | .error e => .error e
      | .ok price =>
        match (match jget j "trackTimeMillis" with
               | some .null => Except.ok JVal.null
               | some (.num q) => Except.ok (JVal.num (pyRound (ratDiv q 1000) 2))
               | some _ => Except.error (PyError.typeError "div")
               | none => Except.ok JVal.null) with
        | .error e => .error e
        | .ok duration =>
          match (match Album._set_artist j with
                 | .ok a => Except.ok a
                 | .error (.keyError _) => Except.ok (none : Option ArtistData)
                 | .error e => Except.error e) with
          | .error e => .error e
          | .ok artist =>
            match (match jget j "collectionId" with
                   | none => Except.ok AlbumAttr.unset
                   | some cid =>
                     match Album._set cid j with
                     | .ok a => Except.ok (AlbumAttr.set a)
                     | .error (.keyError _) => Except.ok AlbumAttr.pyNone
                     | .error e => Except.error e) with
            | .error e => .error e
            | .ok album =>
              .ok
                { base with
                  name := name
                  url := (jget j "trackViewUrl").getD .null
                  preview_url := (jget j "previewUrl").getD .null
                  price := price
                  number := (jget j "trackNumber").getD .null
                  duration := duration
                  artist := artist
                  album := album }

/-- The parsed response envelope consumed by `_BaseObject.get`:
`errorMessage` is `some` iff that key is present, likewise `resultCount`
(accessed with `[]`, so absence is a `KeyError`) and the `results` array. -/
structure Envelope where
  errorMessage : Option JVal
  resultCount : Option JVal
  results : Option (List Json)
  deriving DecidableEq, Inhabited

/-- The dispatch tag of one results entry: the value of `wrapperType` when
that key is present, else the value of `kind` when present, else `None`
(the loop variable `type` is reset to `None` every iteration). -/
def tagOf (r : Json) : Option JVal :=
  match jget r "wrapperType" with
  | some v => some v
  | none => jget r "kind"

/-- One iteration of the result loop in `_BaseObject.get`.  `idVar` is the
current value of the Python local variable `id`, which is NOT reset between
iterations: the fallback branch only rebinds it when the record carries a
`collectionId` or an `artistId`, and reading it while still unbound raises
`NameError`.  Returns the constructed object and the updated `id`. -/
def processEntry (idVar : Option JVal) (r : Json) :
    Except PyError (PyObj × Option JVal) :=
  let t := tagOf r
  if t = some (JVal.str "artist") then
    match jget r "artistId" with
    | some i =>
      match Artist._set i r with
      | .ok d => .ok (.artist d, some i)
      | .error e => .error e
    | none => .error (.keyError "artistId")
  else if t = some (JVal.str "collection") then
    match jget r "collectionId" with
    | some i =>
      match Album._set i r with
      | .ok d => .ok (.album d, some i)
      | .error e => .error e
    | none => .error (.keyError "collectionId")
  else if t = some (JVal.str "track") then
    match jget r "trackId" with
    | some i =>
      match Track._set i r with
      | .ok d => .ok (.track d, some i)
      | .error e => .error e
    | none => .error (.keyError "trackId")
  else
    let idv :=
      match jget r "collectionId" with
      | some i => some i
      | none =>
        match jget r "artistId" with
        | some i => some i
        | none => idVar
    match idv with
    | some i =>
      match Item._set i r with
      | .ok d => .ok (.item d, some i)
      | .error e => .error e
    | none => .error (.nameError "id")

/-- The result loop of `_BaseObject.get`, threading the persistent `id`. -/
def processResults (idVar : Option JVal) : List Json → Except PyError (List PyObj)
  | [] => .ok []
  | r :: rs =>
    match processEntry idVar r with
    | .error e => .error e
    | .ok (o, idVar') =>
      match processResults idVar' rs with
      | .error e => .error e
      | .ok rest => .ok (o :: rest)

/-- `_BaseObject.get`: raise on an `errorMessage` envelope, read
`resultCount` (a `KeyError` when absent), then dispatch every entry of
`results` in order, starting with the loop variable `id` unbound. -/
def _BaseObject.get (env : Envelope) : Except PyError (List PyObj) :=
  match env.errorMessage with
  | some m => .error (.serviceException "Error" m)
  | none =>
    match env.resultCount with
    | none => .error (.keyError "resultCount")
    | some _ =>
      match env.results with
      | none => .error (.keyError "results")
      | some rs => processResults none rs

/-- The constructor arguments of a `Lookup` query (its `_search_terms` are
`id`, `entity`/`country` when given, and `limit`). -/
structure LookupQuery where
  id : JVal
  entity : Option JVal
  country : Option JVal
  limit : ℤ
  deriving DecidableEq, Inhabited

/-- The transport abstracted: an oracle mapping each `Lookup` query the code
builds to the parsed JSON envelope the service answers with. -/
abbrev Service := LookupQuery → Envelope

/-- `Item.__eq__`: `False` against `None`, else compare the `id` attributes. -/
def Item.eq (self : PyObj) (other : Option PyObj) : Bool :=
  match other with
  | none => false
  | some o => self.pyId == o.pyId

/-- `Item.__ne__`: also `False` against `None` (not `True`), else compare
the `id` attributes for inequality. -/
def Item.ne (self : PyObj) (other : Option PyObj) : Bool :=
  match other with
  | none => false
  | some o => self.pyId != o.pyId

/-- `Item.get_tracks(limit)`: return `self` when `type == 'song'`; else run
`Lookup(id=self.id, entity='song', limit=limit).get()`, raise
`ServiceException('Error', 'Nothing found!')` when it yields no items, else
return the items with the first dropped.  `Sum.inl` is the single-object
return (`self`), `Sum.inr` a list return. -/
def Item.get_tracks (svc : Service) (self : PyObj) (limit : ℤ) :
    Except PyError (PyObj ⊕ List PyObj) :=
  if self.pyType = JVal.str "song" then .ok (.inl self)
  else
    match _BaseObject.get (svc ⟨self.pyId, some (.str "song"), none, limit⟩) with
    | .error e => .error e
    | .ok items =>
      if items.isEmpty then .error (.serviceException "Error" (.str "Nothing found!"))
      else .ok (.inr (items.drop 1))

/-- `Item.get_music_videos(limit)`: same pattern with entity `musicVideo`. -/
def Item.get_music_videos (svc : Service) (self : PyObj) (limit : ℤ) :
    Except PyError (PyObj ⊕ List PyObj) :=
  if self.pyType = JVal.str "musicVideo" then .ok (.inl self)
  else
    match _BaseObject.get (svc ⟨self.pyId, some (.str "musicVideo"), none, limit⟩) with
    | .error e => .error e
    | .ok items =>
      if items.isEmpty then .error (.serviceException "Error" (.str "Nothing found!"))
      else .ok (.inr (items.drop 1))

/-- `Item.get_album()`: return `self` when `type == 'collection'`; else run
`Lookup(id=self.id, entity='album', limit=1).get()` and return element 1
when at least two items came back, else raise `'Nothing found!'`. -/
def Item.get_album (svc : Service) (self : PyObj) :
    Except PyError (PyObj ⊕ List PyObj) :=
  if self.pyType = JVal.str "collection" then .ok (.inl self)
  else
    match _BaseObject.get (svc ⟨self.pyId, some (.str "album"), none, 1⟩) with
    | .error e => .error e
    | .ok items =>
      match items with
      | [] => .error (.serviceException "Error" (.str "Nothing found!"))
      | [_] => .error (.serviceException "Error" (.str "Nothing found!"))
      | _ :: x :: _ => .ok (.inl x)

/-- `Item.get_albums(limit)`: return `self` when `type == 'collection'`,
delegate to `get_album` when `type == 'song'`; else run
`Lookup(id=self.id, entity='album', limit=limit).get()[1:]`, raise
`'Nothing found!'` when that slice is empty, and return it with one more
leading element dropped. -/
def Item.get_albums (svc : Service) (self : PyObj) (limit : ℤ) :
    Except PyError (PyObj ⊕ List PyObj) :=
  if self.pyType = JVal.str "collection" then .ok (.inl self)
  else if self.pyType = JVal.str "song" then Item.get_album svc self
  else
    match _BaseObject.get (svc ⟨self.pyId, some (.str "album"), none, limit⟩) with
    | .error e => .error e
    | .ok items0 =>
      let items := items0.drop 1
      if items.isEmpty then .error (.serviceException "Error" (.str "Nothing found!"))
      else .ok (.inr (items.drop 1))

/-- The free function `lookup(id, entity, country, limit)`: run the
`Lookup`, raise `'Nothing found!'` when no items came back, else return the
first item. -/
def lookup (svc : Service) (id : JVal) (entity country : Option JVal)
    (limit : ℤ) : Except PyError PyObj :=
  match _BaseObject.get (svc ⟨id, entity, country, limit⟩) with
  | .error e => .error e
  | .ok items =>
    match items with
    | [] => .error (.serviceException "Error" (.str "Nothing found!"))
    | x :: _ => .ok x

/-- The `_search_terms` dict built by `Search.__init__`, as an ordered
key/value list (Python dicts preserve insertion order): `entity` and
`attribute` only when truthy, `offset` only when positive, `order` only
when not `None`. -/
def Search.searchTerms (query country media entity attrib : JVal)
    (offset : ℤ) (limit : JVal) (order : Option JVal)
    (lang version explicit : JVal) : List (String × JVal) :=
  [("term", query), ("country", country), ("media", media)]
  ++ (if entity.truthy then [("entity", entity)] else [])
  ++ (if attrib.truthy then [("attribute", attrib)] else [])
  ++ [("limit", limit)]
  ++ (if 0 < offset then [("offset", JVal.num offset)] else [])
  ++ (match order with | some o => [("order", o)] | none => [])
  ++ [("lang", lang), ("version", version), ("explicit", explicit)]

/-- An entry on which the fallback branch of the dispatch loop binds a fresh
identifier (or one of the three tagged branches fires): exactly the entries
whose processing cannot read the stale loop variable `id`. -/
def fallbackHasId (r : Json) : Prop :=
  tagOf r = some (JVal.str "artist") ∨ tagOf r = some (JVal.str "collection") ∨
  tagOf r = some (JVal.str "track") ∨
  (jget r "collectionId").isSome = true ∨ (jget r "artistId").isSome = true

instance (r : Json) : Decidable (fallbackHasId r) := by
  unfold fallbackHasId; infer_instance

/-- An entry with none of `wrapperType`, `kind`, `collectionId`, `artistId`. -/
def badEntry (r : Json) : Prop :=
  jget r "wrapperType" = none ∧ jget r "kind" = none ∧
  jget r "collectionId" = none ∧ jget r "artistId" = none

instance (r : Json) : Decidable (badEntry r) := by
  unfold badEntry; infer_instance

/-- The dispatch of a single entry, as the specification describes it:
stateless, with the loop variable `id` unbound. -/
def dispatchEntry (r : Json) : Except PyError PyObj :=
  (processEntry none r).map Prod.fst

/-- A concrete artist entry. -/
def artistRec : Json :=
  [("wrapperType", .str "artist"), ("artistId", .num 5),
   ("artistName", .str "Beatles"), ("primaryGenreName", .str "Rock")]

/-- A concrete collection entry with a 3.996 price. -/
def collectionRec : Json :=
  [("wrapperType", .str "collection"), ("collectionId", .num 9),
   ("collectionName", .str "Abbey Road"), ("currency", .str "USD"),
   ("trackCount", .num 17), ("collectionPrice", .num (mkRat 3996 1000))]

/-- A concrete track entry. -/
def trackRec : Json :=
  [("wrapperType", .str "track"), ("kind", .str "song"), ("trackId", .num 11),
   ("trackName", .str "Come Together"), ("trackPrice", .num (mkRat 129 100)),
   ("trackTimeMillis", .num 259733), ("artistId", .num 5),
   ("artistName", .str "Beatles"), ("collectionId", .num 9),
   ("collectionName", .str "Abbey Road"), ("currency", .str "USD"),
   ("trackCount", .num 17)]

/-- A concrete entry with an unrecognised wrapper type, dispatched to the
generic `Item` fallback via its `collectionId`. -/
def genericRec : Json :=
  [("wrapperType", .str "audiobook"), ("collectionId", .num 13),
   ("collectionName", .str "B")]

/-- A concrete entry carrying none of the dispatch/identifier fields. -/
def emptyRec : Json := []

/-- An envelope holding one entry of each dispatch shape. -/
def envDispatch : Envelope :=
  ⟨none, some (.num 4), some [artistRec, collectionRec, trackRec, genericRec]⟩

/-- An envelope whose second entry has no dispatch/identifier fields but is
preceded by an entry that leaves the loop variable `id` bound. -/
def envStaleId : Envelope := ⟨none, some (.num 2), some [artistRec, emptyRec]⟩

/-- An envelope whose single entry has no dispatch/identifier fields. -/
def envUnbound : Envelope := ⟨none, some (.num 1), some [emptyRec]⟩

/-- A service oracle always answering with an empty results array. -/
def svcEmpty : Service := fun _ => ⟨none, some (.num 0), some []⟩

/-- A service oracle always answering with one track entry. -/
def svcOneTrack : Service := fun _ => ⟨none, some (.num 1), some [trackRec]⟩

/-- A service oracle always answering with three collection entries. -/
def svcThreeAlbums : Service :=
  fun _ => ⟨none, some (.num 3), some [collectionRec, collectionRec, collectionRec]⟩

/-- A plain `Item` whose `type` attribute is the string `track`. -/
def selfTrack : PyObj :=
  .item { id := .num 1, json := [], type := .str "track", name := .null,
          url := .null, genre := .null, release_date := .null,
          country_store := .null, artwork := [] }

/-- A plain `Item` whose `type` attribute is the string `song`. -/
def selfSong : PyObj :=
  .item { id := .num 1, json := [], type := .str "song", name := .null,
          url := .null, genre := .null, release_date := .null,
          country_store := .null, artwork := [] }

/-- A plain `Item` whose `type` attribute is the string `podcast`. -/
def selfOther : PyObj :=
  .item { id := .num 1, json := [], type := .str "podcast", name := .null,
          url := .null, genre := .null, release_date := .null,
          country_store := .null, artwork := [] }

/-- The album built from `collectionRec` (fallback value is never reached). -/
def albumOfRec : AlbumData :=
  match Album._set (.num 9) collectionRec with
  | .ok a => a
  | .error _ => default

/-- A track record whose album population fails on `collectionName`. -/
def trkNoAlbumNameRec : Json :=
  [("kind", .str "song"), ("trackName", .str "T"), ("collectionId", .num 7)]

/-- The track built from `trkNoAlbumNameRec`. -/
def trackOfRec : TrackData :=
  match Track._set (.num 3) trkNoAlbumNameRec with
  | .ok t => t
  | .error _ => default

/-- The track built from `trackRec`. -/
def trackOfTrackRec : TrackData :=
  match Track._set (.num 11) trackRec with
  | .ok t => t
  | .error _ => default

/-- Two result objects built from records agreeing only on the identifier. -/
def itemSameId1 : PyObj :=
  match Item._set (.num 42) genericRec with
  | .ok d => .item d
  | .error _ => default

/-- See `itemSameId1`: same identifier, every other field different. -/
def itemSameId2 : PyObj :=
  match Track._set (.num 42) trackRec with
  | .ok d => .track d
  | .error _ => default

/-! ## Helper lemmas -/

theorem Item_set_id_eq (i : JVal) (j : Json) (d : ItemFields)
    (h : Item._set i j = .ok d) : d.id = i := by
  unfold Item._set at h
  cases ht : (match jget j "kind" with
              | some v => some v
              | none => jget j "wrapperType") with
  | none => rw [ht] at h; exact Except.noConfusion h
  | some type =>
    rw [ht] at h
    cases hr : Item._set_release j with
    | error e => rw [hr] at h; exact Except.noConfusion h
    | ok release =>
      rw [hr] at h
      injection h with h'
      subst h'
      rfl

theorem Artist_set_id_eq (i : JVal) (j : Json) (d : ArtistData)
    (h : Artist._set i j = .ok d) : d.id = i := by
  unfold Artist._set at h
  cases hI : Item._set i j with
  | error e => rw [hI] at h; exact Except.noConfusion h
  | ok base =>
    rw [hI] at h
    cases hn : jget j "artistName" with
    | none => rw [hn] at h; exact Except.noConfusion h
    | some name =>
      rw [hn] at h
      injection h with h'
      subst h'
      exact Item_set_id_eq i j base hI

theorem Album_set_id_eq (i : JVal) (j : Json) (d : AlbumData)
    (h : Album._set i j = .ok d) : d.id = i := by
  unfold Album._set at h
  cases hI : Item._set i j with
  | error e => simp [hI] at h
  | ok base =>
    simp only [hI] at h
    cases hn : jget j "collectionName" with
    | none => simp [hn] at h
    | some name =>
      simp only [hn] at h
      cases hp : (if ((jget j "collectionPrice").getD (JVal.num 0)).truthy = true
                  then (jget j "collectionPrice").getD (JVal.num 0)
                  else JVal.num 0)
      case null => simp [hp] at h
      case bool b => simp [hp] at h
      case str s => simp [hp] at h
      case num q =>
        simp only [hp] at h
        cases hc : jget j "currency" with
        | none => simp [hc] at h
        | some currency =>
          simp only [hc] at h
          cases htc : jget j "trackCount" with
          | none => simp [htc] at h
          | some trackCount =>
            simp only [htc] at h
            cases ha : Album._set_artist j with
            | error e => simp [ha] at h
            | ok artist =>
              simp only [ha, Except.ok.injEq] at h
              subst h
              exact Item_set_id_eq i j base hI

theorem Track_set_id_eq (i : JVal) (j : Json) (d : TrackData)
    (h : Track._set i j = .ok d) : d.id = i := by
  unfold Track._set at h
  cases hI : Item._set i j with
  | error e => simp [hI] at h
  | ok base =>
    simp only [hI] at h
    cases hn : jget j "trackName" with
    | none => simp [hn] at h
    | some name =>
      simp only [hn] at h
      cases hp : (match jget j "trackPrice" with
                  | some .null => Except.ok JVal.null
                  | some (.num q) => Except.ok (JVal.num (pyRound q 4))
                  | some _ => Except.error (PyError.typeError "round")
                  | none => Except.ok JVal.null) with
      | error e => simp [hp] at h
      | ok price =>
        simp only [hp] at h
        cases hd : (match jget j "trackTimeMillis" with
                    | some .null => Except.ok JVal.null
                    | some (.num q) => Except.ok (JVal.num (pyRound (ratDiv q 1000) 2))
                    | some _ => Except.error (PyError.typeError "div")
                    | none => Except.ok JVal.null) with
        | error e => simp [hd] at h
        | ok duration =>
          simp only [hd] at h
          cases ha : (match Album._set_artist j with
                      | .ok a => Except.ok a
                      | .error (.keyError _) => Except.ok (none : Option ArtistData)
                      | .error e => Except.error e) with
          | error e => simp [ha] at h
          | ok artist =>
            simp only [ha] at h
            cases hb : (match jget j "collectionId" with
                        | none => Except.ok AlbumAttr.unset
                        | some cid =>
                          match Album._set cid j with
                          | .ok a => Except.ok (AlbumAttr.set a)
                          | .error (.keyError _) => Except.ok AlbumAttr.pyNone
                          | .error e => Except.error e) with
            | error e => simp [hb] at h
            | ok album =>
              simp only [hb, Except.ok.injEq] at h
              subst h
              exact Item_set_id_eq i j base hI

theorem processEntry_idVar_irrel (r : Json) (h : fallbackHasId r)
    (idVar : Option JVal) : processEntry idVar r = processEntry none r := by
  unfold processEntry
  by_cases h1 : tagOf r = some (JVal.str "artist")
  · simp only [h1, if_pos]
  · by_cases h2 : tagOf r = some (JVal.str "collection")
    · simp [h1, h2]
    · by_cases h3 : tagOf r = some (JVal.str "track")
      · simp [h1, h2, h3]
      · rcases h with h | h | h | h | h
        · exact absurd h h1
        · exact absurd h h2
        · exact absurd h h3
        · obtain ⟨i, hi⟩ := Option.isSome_iff_exists.mp h
          simp [h1, h2, h3, hi]
        · obtain ⟨i, hi⟩ := Option.isSome_iff_exists.mp h
          cases hc : jget r "collectionId" <;> simp [h1, h2, h3, hc, hi]

theorem processResults_mapM (rs : List Json) (h : ∀ r ∈ rs, fallbackHasId r)
    (idVar : Option JVal) : processResults idVar rs = rs.mapM dispatchEntry := by
  induction rs generalizing idVar with
  | nil => rw [List.mapM_nil]; rfl
  | cons r rs ih =>
    rw [List.mapM_cons]
    have hr : fallbackHasId r := h r (List.mem_cons_self r rs)
    have hrs : ∀ x ∈ rs, fallbackHasId x := fun x hx => h x (List.mem_cons_of_mem r hx)
    unfold processResults
    rw [processEntry_idVar_irrel r hr idVar]
    cases hpe : processEntry none r with
    | error e => simp [dispatchEntry, hpe, Except.map, Bind.bind, Except.bind]
    | ok p =>
      obtain ⟨o, iv⟩ := p
      simp only [dispatchEntry, hpe, Except.map, Bind.bind, Except.bind, pure,
        Except.pure]
      rw [ih hrs iv]
      cases rs.mapM dispatchEntry <;> rfl

theorem mapM_ok_get (f : Json → Except PyError PyObj) :
    ∀ (rs : List Json) (l : List PyObj), rs.mapM f = .ok l →
      l.length = rs.length ∧
      ∀ i (hi : i < rs.length) (hl : i < l.length),
        f (rs.get ⟨i, hi⟩) = .ok (l.get ⟨i, hl⟩) := by
  intro rs
  induction rs with
  | nil =>
    intro l h
    rw [List.mapM_nil] at h
    have hl : l = [] := by
      simpa [pure, Except.pure] using h.symm
    subst hl
    exact ⟨rfl, fun i hi _ => absurd hi (Nat.not_lt_zero i)⟩
  | cons r rs ih =>
    intro l h
    rw [List.mapM_cons] at h
    cases hf : f r with
    | error e => rw [hf] at h; simp [Bind.bind, Except.bind] at h
    | ok o =>
      rw [hf] at h
      cases hm : rs.mapM f with
      | error e => rw [hm] at h; simp [Bind.bind, Except.bind] at h
      | ok l' =>
        rw [hm] at h
        simp only [Bind.bind, Except.bind, pure, Except.pure, Except.ok.injEq] at h
        subst h
        obtain ⟨hlen, hidx⟩ := ih l' hm
        refine ⟨by simp [hlen], ?_⟩
        intro i hi hl
        cases i with
        | zero => simpa using hf
        | succ n =>
          have hn : n < rs.length := by simpa using hi
          have hn' : n < l'.length := by simpa using hl
          simpa using hidx n hn hn'

theorem badEntry_processEntry (r : Json) (h : badEntry r) :
    processEntry none r = .error (.nameError "id") ∧
    ∀ i, processEntry (some i) r = .error (.keyError "wrapperType") := by
  obtain ⟨hw, hk, hc, ha⟩ := h
  have ht : tagOf r = none := by simp [tagOf, hw, hk]
  constructor
  · simp [processEntry, ht, hc, ha]
  · intro i
    simp [processEntry, ht, hc, ha, Item._set, hk, hw]

theorem processResults_error_of_bad :
    ∀ (rs : List Json) (idVar : Option JVal), (∃ r ∈ rs, badEntry r) →
      ∃ e, processResults idVar rs = .error e := by
  intro rs
  induction rs with
  | nil =>
    intro idVar h
    obtain ⟨r, hr, _⟩ := h
    exact absurd hr (List.not_mem_nil r)
  | cons r rs ih =>
    intro idVar h
    by_cases hb : badEntry r
    · cases idVar with
      | none =>
        refine ⟨.nameError "id", ?_⟩
        unfold processResults
        rw [(badEntry_processEntry r hb).1]
      | some i =>
        refine ⟨.keyError "wrapperType", ?_⟩
        unfold processResults
        rw [(badEntry_processEntry r hb).2 i]
    · obtain ⟨x, hx, hxbad⟩ := h
      rcases List.mem_cons.mp hx with rfl | hx'
      · exact absurd hxbad hb
      · cases hpe : processEntry idVar r with
        | error e => exact ⟨e, by unfold processResults; rw [hpe]⟩
        | ok p =>
          obtain ⟨o, iv⟩ := p
          obtain ⟨e, he⟩ := ih iv ⟨x, hx', hxbad⟩
          refine ⟨e, ?_⟩
          unfold processResults
          rw [hpe]
          simp only [he]

theorem dispatchEntry_ok_cases (r : Json) (o : PyObj)
    (h : dispatchEntry r = .ok o) :
    (tagOf r = some (JVal.str "artist") →
       ∃ d, o = .artist d ∧ jget r "artistId" = some d.id ∧
         Artist._set d.id r = .ok d) ∧
    (tagOf r = some (JVal.str "collection") →
       ∃ d, o = .album d ∧ jget r "collectionId" = some d.id ∧
         Album._set d.id r = .ok d) ∧
    (tagOf r = some (JVal.str "track") →
       ∃ d, o = .track d ∧ jget r "trackId" = some d.id ∧
         Track._set d.id r = .ok d) ∧
    (tagOf r ≠ some (JVal.str "artist") → tagOf r ≠ some (JVal.str "collection") →
     tagOf r ≠ some (JVal.str "track") →
       ∃ d, o = .item d ∧ Item._set d.id r = .ok d ∧
         (jget r "collectionId" = some d.id ∨
          (jget r "collectionId" = none ∧ jget r "artistId" = some d.id))) := by
  simp only [dispatchEntry, processEntry] at h
  by_cases h1 : tagOf r = some (JVal.str "artist")
  · rw [if_pos h1] at h
    refine ⟨fun _ => ?_, fun ht => absurd (h1.symm.trans ht) (by decide),
            fun ht => absurd (h1.symm.trans ht) (by decide),
            fun hna _ _ => absurd h1 hna⟩
    cases ha : jget r "artistId" with
    | none =>
      simp only [ha, Except.map] at h
      exact Except.noConfusion h
    | some i =>
      cases hs : Artist._set i r with
      | error e =>
        simp only [ha, hs, Except.map] at h
        exact Except.noConfusion h
      | ok d =>
        simp only [ha, hs, Except.map, Except.ok.injEq] at h
        subst h
        refine ⟨d, rfl, ?_, ?_⟩
        · rw [Artist_set_id_eq i r d hs]
        · rw [Artist_set_id_eq i r d hs]; exact hs
  · rw [if_neg h1] at h
    by_cases h2 : tagOf r = some (JVal.str "collection")
    · rw [if_pos h2] at h
      refine ⟨fun ht => absurd (h2.symm.trans ht) (by decide), fun _ => ?_,
              fun ht => absurd (h2.symm.trans ht) (by decide),
              fun _ hnc _ => absurd h2 hnc⟩
      cases hc : jget r "collectionId" with
      | none =>
        simp only [hc, Except.map] at h
        exact Except.noConfusion h
      | some i =>
        cases hs : Album._set i r with
        | error e =>
          simp only [hc, hs, Except.map] at h
          exact Except.noConfusion h
        | ok d =>
          simp only [hc, hs, Except.map, Except.ok.injEq] at h
          subst h
          refine ⟨d, rfl, ?_, ?_⟩
          · rw [Album_set_id_eq i r d hs]
          · rw [Album_set_id_eq i r d hs]; exact hs
    · rw [if_neg h2] at h
      by_cases h3 : tagOf r = some (JVal.str "track")
      · rw [if_pos h3] at h
        refine ⟨fun ht => absurd (h3.symm.trans ht) (by decide),
                fun ht => absurd (h3.symm.trans ht) (by decide), fun _ => ?_,
                fun _ _ hnt => absurd h3 hnt⟩
        cases hc : jget r "trackId" with
        | none =>
          simp only [hc, Except.map] at h
          exact Except.noConfusion h
        | some i =>
          cases hs : Track._set i r with
          | error e =>
            simp only [hc, hs, Except.map] at h
            exact Except.noConfusion h
          | ok d =>
            simp only [hc, hs, Except.map, Except.ok.injEq] at h
            subst h
            refine ⟨d, rfl, ?_, ?_⟩
            · rw [Track_set_id_eq i r d hs]
            · rw [Track_set_id_eq i r d hs]; exact hs
      · rw [if_neg h3] at h
        refine ⟨fun ht => absurd ht h1, fun ht => absurd ht h2,
                fun ht => absurd ht h3, fun _ _ _ => ?_⟩
        cases hc : jget r "collectionId" with
        | some i =>
          cases hs : Item._set i r with
          | error e =>
            simp only [hc, hs, Except.map] at h
            exact Except.noConfusion h
          | ok d =>
            simp only [hc, hs, Except.map, Except.ok.injEq] at h
            subst h
            refine ⟨d, rfl, ?_, ?_⟩
            · rw [Item_set_id_eq i r d hs]; exact hs
            · left; rw [Item_set_id_eq i r d hs]
        | none =>
          cases ha : jget r "artistId" with
          | none =>
            simp only [hc, ha, Except.map] at h
            exact Except.noConfusion h
          | some i =>
            cases hs : Item._set i r with
            | error e =>
              simp only [hc, ha, hs, Except.map] at h
              exact Except.noConfusion h
            | ok d =>
              simp only [hc, ha, hs, Except.map, Except.ok.injEq] at h
              subst h
              refine ⟨d, rfl, ?_, ?_⟩
              · rw [Item_set_id_eq i r d hs]; exact hs
              · right
                exact ⟨rfl, by rw [Item_set_id_eq i r d hs]⟩

theorem Album._set_ok_price (i : JVal) (j : Json) (a : AlbumData) (q : ℚ)
    (hraw : (if ((jget j "collectionPrice").getD (JVal.num 0)).truthy = true
             then (jget j "collectionPrice").getD (JVal.num 0)
             else JVal.num 0) = JVal.num q)
    (h : Album._set i j = .ok a) : a.price = JVal.num (pyRound q 4) := by
  unfold Album._set at h
  cases hI : Item._set i j with
  | error e => simp [hI] at h
  | ok base =>
    simp only [hI] at h
    cases hn : jget j "collectionName" with
    | none => simp [hn] at h
    | some name =>
      simp only [hn, hraw] at h
      cases hc : jget j "currency" with
      | none => simp [hc] at h
      | some currency =>
        simp only [hc] at h
        cases htc : jget j "trackCount" with
        | none => simp [htc] at h
        | some trackCount =>
          simp only [htc] at h
          cases ha : Album._set_artist j with
          | error e => simp [ha] at h
          | ok artist =>
            simp only [ha, Except.ok.injEq] at h
            subst h
            rfl

theorem Track._set_album_cases (i : JVal) (j : Json) (t : TrackData)
    (h : Track._set i j = .ok t) :
    (jget j "collectionId" = none → t.album = AlbumAttr.unset) ∧
    (∀ cid, jget j "collectionId" = some cid →
       (∃ a, Album._set cid j = .ok a ∧ t.album = AlbumAttr.set a) ∨
       (∃ k, Album._set cid j = .error (.keyError k) ∧
          t.album = AlbumAttr.pyNone)) := by
  unfold Track._set at h
  cases hI : Item._set i j with
  | error e => simp [hI] at h
  | ok base =>
    simp only [hI] at h
    cases hn : jget j "trackName" with
    | none => simp [hn] at h
    | some name =>
      simp only [hn] at h
      cases hp : (match jget j "trackPrice" with
                  | some .null => Except.ok JVal.null
                  | some (.num q) => Except.ok (JVal.num (pyRound q 4))
                  | some _ => Except.error (PyError.typeError "round")
                  | none => Except.ok JVal.null) with
      | error e => simp [hp] at h
      | ok price =>
        simp only [hp] at h
        cases hd : (match jget j "trackTimeMillis" with
                    | some .null => Except.ok JVal.null
                    | some (.num q) => Except.ok (JVal.num (pyRound (ratDiv q 1000) 2))
                    | some _ => Except.error (PyError.typeError "div")
                    | none => Except.ok JVal.null) with
        | error e => simp [hd] at h
        | ok duration =>
          simp only [hd] at h
          cases ha : (match Album._set_artist j with
                      | .ok a => Except.ok a
                      | .error (.keyError _) => Except.ok (none : Option ArtistData)
                      | .error e => Except.error e) with
          | error e => simp [ha] at h
          | ok artist =>
            simp only [ha] at h
            cases hcid : jget j "collectionId" with
            | none =>
              simp only [hcid, Except.ok.injEq] at h
              subst h
              refine ⟨fun _ => rfl, fun cid hc => ?_⟩
              exact Option.noConfusion hc
            | some cid0 =>
              simp only [hcid] at h
              cases hAs : Album._set cid0 j with
              | ok a0 =>
                simp only [hAs, Except.ok.injEq] at h
                subst h
                refine ⟨fun hc => ?_, fun cid hc => ?_⟩
                · exact Option.noConfusion hc
                · injection hc with hcc
                  subst hcc
                  exact Or.inl ⟨a0, hAs, rfl⟩
              | error e0 =>
                cases e0 with
                | keyError k =>
                  simp only [hAs, Except.ok.injEq] at h
                  subst h
                  refine ⟨fun hc => ?_, fun cid hc => ?_⟩
                  · exact Option.noConfusion hc
                  · injection hc with hcc
                    subst hcc
                    exact Or.inr ⟨k, hAs, rfl⟩
                | serviceException t0 m0 => simp [hAs] at h
                | nameError n0 => simp [hAs] at h
                | attributeError a0 => simp [hAs] at h
                | typeError m0 => simp [hAs] at h

/-! ## Claim theorems -/

/-- C1: For every results array entry, `_BaseObject.get` determines the
variant from `wrapperType` first, else `kind` (`tagOf`), maps `artist` to an
`Artist` with id from `artistId`, `collection` to an `Album` with id from
`collectionId`, `track` to a `Track` with id from `trackId`, and any other
entry to a generic `Item` whose identifier is the `collectionId` if present,
else the `artistId` if present; each object is populated from the full
record by its `_set`, and the returned list preserves source order
(processing is per-entry, position `i` of the output comes from entry `i`). -/
theorem itunes_get_dispatch (env : Envelope) (rs : List Json) (c : JVal)
    (hmsg : env.errorMessage = none) (hcount : env.resultCount = some c)
    (hres : env.results = some rs) (hfb : ∀ r ∈ rs, fallbackHasId r) :
    _BaseObject.get env = rs.mapM dispatchEntry ∧
    (∀ l, _BaseObject.get env = .ok l →
       l.length = rs.length ∧
       ∀ i (hi : i < rs.length) (hl : i < l.length),
         dispatchEntry (rs.get ⟨i, hi⟩) = .ok (l.get ⟨i, hl⟩)) ∧
    (∀ r o, r ∈ rs → dispatchEntry r = .ok o →
       (tagOf r = some (JVal.str "artist") →
          ∃ d, o = .artist d ∧ jget r "artistId" = some d.id ∧
            Artist._set d.id r = .ok d) ∧
       (tagOf r = some (JVal.str "collection") →
          ∃ d, o = .album d ∧ jget r "collectionId" = some d.id ∧
            Album._set d.id r = .ok d) ∧
       (tagOf r = some (JVal.str "track") →
          ∃ d, o = .track d ∧ jget r "trackId" = some d.id ∧
            Track._set d.id r = .ok d) ∧
       (tagOf r ≠ some (JVal.str "artist") →
        tagOf r ≠ some (JVal.str "collection") →
        tagOf r ≠ some (JVal.str "track") →
          ∃ d, o = .item d ∧ Item._set d.id r = .ok d ∧
            (jget r "collectionId" = some d.id ∨
             (jget r "collectionId" = none ∧ jget r "artistId" = some d.id)))) := by
  have hget : _BaseObject.get env = rs.mapM dispatchEntry := by
    unfold _BaseObject.get
    rw [hmsg, hcount, hres]
    exact processResults_mapM rs hfb none
  refine ⟨hget, ?_, ?_⟩
  · intro l hl
    rw [hget] at hl
    exact mapM_ok_get dispatchEntry rs l hl
  · intro r o _ h
    exact dispatchEntry_ok_cases r o h

/-- Witness for C1 at a four-entry envelope holding an artist, a collection,
a track and an unrecognised entry: the dispatch hypotheses all hold and the
stateful loop agrees with the per-entry dispatch. -/
theorem itunes_get_dispatch_witness :
    _BaseObject.get envDispatch =
      [artistRec, collectionRec, trackRec, genericRec].mapM dispatchEntry :=
  (itunes_get_dispatch envDispatch [artistRec, collectionRec, trackRec, genericRec]
    (.num 4) rfl rfl rfl (by decide)).1

/-- C8 (amended): a results entry with none of `wrapperType`, `kind`,
`collectionId`, `artistId` never yields a generic `Item`: `get` fails
instead of returning a list — with `NameError` on the unbound loop variable
`id` when the entry comes first, and in general with some error (a
`KeyError` when an earlier entry left `id` bound, since the record also
lacks the `type` field). -/
theorem itunes_get_missing_id_fails (env : Envelope) (rs : List Json) (c : JVal)
    (hmsg : env.errorMessage = none) (hcount : env.resultCount = some c)
    (hres : env.results = some rs) :
    ((∃ r ∈ rs, badEntry r) → ∃ e, _BaseObject.get env = .error e) ∧
    (∀ r rest, rs = r :: rest → badEntry r →
       _BaseObject.get env = .error (.nameError "id")) := by
  have hrw : _BaseObject.get env = processResults none rs := by
    unfold _BaseObject.get
    rw [hmsg, hcount, hres]
  constructor
  · intro hex
    rw [hrw]
    exact processResults_error_of_bad rs none hex
  · intro r rest hcons hb
    subst hcons
    rw [hrw]
    unfold processResults
    rw [(badEntry_processEntry r hb).1]

/-- Witness for C8 at a one-entry envelope whose entry has no fields:
`get` raises `NameError` on the unbound local `id`. -/
theorem itunes_get_missing_id_witness :
    _BaseObject.get envUnbound = .error (.nameError "id") :=
  (itunes_get_missing_id_fails envUnbound [emptyRec] (.num 1) rfl rfl rfl).2
    emptyRec [] rfl (by decide)

/-- Counterexample to C8 as stated: when the field-less entry is preceded by
an artist entry, the loop variable `id` is still bound from the previous
iteration, so the failure is a `KeyError` (raised while populating the
generic `Item`, whose record lacks `kind`/`wrapperType`), not a `NameError`. -/
theorem itunes_get_missing_id_counterexample :
    badEntry emptyRec ∧
    _BaseObject.get envStaleId = .error (.keyError "wrapperType") ∧
    ∀ n, _BaseObject.get envStaleId ≠ .error (.nameError n) := by
  refine ⟨by decide, by decide, ?_⟩
  intro n hn
  have h2 : _BaseObject.get envStaleId = .error (.keyError "wrapperType") := by
    decide
  rw [h2] at hn
  exact PyError.noConfusion (Except.error.inj hn)

/-- C2: `Item.get_albums(limit)` returns `self` when the type is
`collection`, delegates to `get_album` when the type is `song`, and
otherwise performs an entity=`album` `Lookup` on the item's identifier and
returns the results with two leading elements removed in total (`[1:]`
applied twice); the emptiness check between the two drops means this
applies whenever the lookup yields at least two results. -/
theorem itunes_get_albums_spec (svc : Service) (self : PyObj) (limit : ℤ) :
    (self.pyType = JVal.str "collection" →
       Item.get_albums svc self limit = .ok (.inl self)) ∧
    (self.pyType = JVal.str "song" →
       Item.get_albums svc self limit = Item.get_album svc self) ∧
    (self.pyType ≠ JVal.str "collection" → self.pyType ≠ JVal.str "song" →
       ∀ l, _BaseObject.get (svc ⟨self.pyId, some (.str "album"), none, limit⟩) =
              .ok l →
         2 ≤ l.length →
         Item.get_albums svc self limit = .ok (.inr (l.drop 2))) := by
  refine ⟨?_, ?_, ?_⟩
  · intro h
    unfold Item.get_albums
    rw [if_pos h]
  · intro h
    unfold Item.get_albums
    rw [if_neg (by rw [h]; decide), if_pos h]
  · intro hc hs l hget hlen
    obtain ⟨a, b, l', rfl⟩ : ∃ a b u, l = a :: b :: u := by
      cases l with
      | nil => simp at hlen
      | cons a u =>
        cases u with
        | nil => simp at hlen
        | cons b u' => exact ⟨a, b, u', rfl⟩
    unfold Item.get_albums
    rw [if_neg hc, if_neg hs, hget]
    rfl

/-- Witness for C2 at an item of type `podcast` against a service answering
three collection entries: two leading elements are dropped. -/
theorem itunes_get_albums_witness :
    Item.get_albums svcThreeAlbums selfOther 500 =
      .ok (.inr [PyObj.album albumOfRec]) :=
  (itunes_get_albums_spec svcThreeAlbums selfOther 500).2.2 (by decide) (by decide)
    [PyObj.album albumOfRec, PyObj.album albumOfRec, PyObj.album albumOfRec]
    (by decide) (by decide)

/-- C3 (amended): `Item.get_tracks(limit)` returns the item itself, without
consulting the service, exactly when the type is the string `song` (a type
of `track` does NOT short-circuit); for every other type it performs a
`Lookup` with entity `song` on the item's identifier, raises
`ServiceException('Error', 'Nothing found!')` when the lookup yields no
items at all, and otherwise returns the items with the first dropped. -/
theorem itunes_get_tracks_spec (svc svc' : Service) (self : PyObj) (limit : ℤ) :
    (self.pyType = JVal.str "song" →
       Item.get_tracks svc self limit = .ok (.inl self) ∧
       Item.get_tracks svc self limit = Item.get_tracks svc' self limit) ∧
    (self.pyType ≠ JVal.str "song" →
       ∀ l, _BaseObject.get (svc ⟨self.pyId, some (.str "song"), none, limit⟩) =
              .ok l →
         (l = [] → Item.get_tracks svc self limit =
            .error (.serviceException "Error" (.str "Nothing found!"))) ∧
         (l ≠ [] → Item.get_tracks svc self limit = .ok (.inr (l.drop 1)))) := by
  constructor
  · intro h
    constructor
    · unfold Item.get_tracks
      rw [if_pos h]
    · unfold Item.get_tracks
      rw [if_pos h, if_pos h]
  · intro hs l hget
    constructor
    · intro hnil
      subst hnil
      unfold Item.get_tracks
      rw [if_neg hs, hget]
      rfl
    · intro hne
      obtain ⟨a, u, rfl⟩ := List.exists_cons_of_ne_nil hne
      unfold Item.get_tracks
      rw [if_neg hs, hget]
      rfl

/-- Witness for C3 at an item of type `podcast` against a service answering
one track entry: the parent record is dropped, leaving the empty tail. -/
theorem itunes_get_tracks_witness :
    Item.get_tracks svcOneTrack selfOther 500 = .ok (.inr []) :=
  ((itunes_get_tracks_spec svcOneTrack svcOneTrack selfOther 500).2 (by decide)
    [PyObj.track trackOfTrackRec] (by decide)).2 (by decide)

/-- Counterexample to C3 as stated ("whose type is a song/track"): an item
whose type is the string `track` does not return itself — the lookup is
performed, and with an empty answer the call raises `Nothing found!`. -/
theorem itunes_get_tracks_track_type_counterexample :
    selfTrack.pyType = JVal.str "track" ∧
    Item.get_tracks svcEmpty selfTrack 500 =
      .error (.serviceException "Error" (.str "Nothing found!")) ∧
    Item.get_tracks svcEmpty selfTrack 500 ≠ .ok (.inl selfTrack) := by
  decide

/-- C4: the free function `lookup` raises
`ServiceException('Error', 'Nothing found!')` when the `Lookup` query's
results array is empty, and otherwise returns the first element of the
constructed result list. -/
theorem itunes_lookup_spec (svc : Service) (id : JVal)
    (entity country : Option JVal) (limit : ℤ) :
    (∀ c, (svc ⟨id, entity, country, limit⟩).errorMessage = none →
       (svc ⟨id, entity, country, limit⟩).resultCount = some c →
       (svc ⟨id, entity, country, limit⟩).results = some [] →
       lookup svc id entity country limit =
         .error (.serviceException "Error" (.str "Nothing found!"))) ∧
    (∀ x rest,
       _BaseObject.get (svc ⟨id, entity, country, limit⟩) = .ok (x :: rest) →
       lookup svc id entity country limit = .ok x) := by
  constructor
  · intro c hmsg hcount hres
    have hget : _BaseObject.get (svc ⟨id, entity, country, limit⟩) = .ok [] := by
      unfold _BaseObject.get
      rw [hmsg, hcount, hres]
      rfl
    unfold lookup
    rw [hget]
  · intro x rest hget
    unfold lookup
    rw [hget]

/-- Witness for C4: an empty-results lookup raises `Nothing found!`; a
one-track lookup returns that track. -/
theorem itunes_lookup_witness :
    lookup svcEmpty (.num 1) none none 500 =
      .error (.serviceException "Error" (.str "Nothing found!")) ∧
    lookup svcOneTrack (.num 1) none none 500 = .ok (PyObj.track trackOfTrackRec) :=
  ⟨(itunes_lookup_spec svcEmpty (.num 1) none none 500).1 (.num 0) rfl rfl rfl,
   (itunes_lookup_spec svcOneTrack (.num 1) none none 500).2
     (PyObj.track trackOfTrackRec) [] (by decide)⟩

/-- C5: constructing an `Album` from a record whose `collectionPrice` is
null or absent yields `price = 0`; from a numeric `collectionPrice q` it
yields `round(q, 4)` — rounding to 4 decimal places, not truncation
(in particular 3.996 stays 3.9960). -/
theorem itunes_album_price_spec (i : JVal) (j : Json) (a : AlbumData)
    (h : Album._set i j = .ok a) :
    ((jget j "collectionPrice" = none ∨ jget j "collectionPrice" = some JVal.null) →
       a.price = JVal.num 0) ∧
    (∀ q : ℚ, jget j "collectionPrice" = some (JVal.num q) →
       a.price = JVal.num (pyRound q 4)) := by
  constructor
  · intro hcp
    have hraw : (if ((jget j "collectionPrice").getD (JVal.num 0)).truthy = true
                 then (jget j "collectionPrice").getD (JVal.num 0)
                 else JVal.num 0) = JVal.num 0 := by
      rcases hcp with hcp | hcp <;> rw [hcp] <;> decide
    have hp := Album._set_ok_price i j a 0 hraw h
    rw [hp]
    decide
  · intro q hq
    by_cases hq0 : q = 0
    · subst hq0
      have hraw : (if ((jget j "collectionPrice").getD (JVal.num 0)).truthy = true
                   then (jget j "collectionPrice").getD (JVal.num 0)
                   else JVal.num 0) = JVal.num 0 := by
        rw [hq]; decide
      exact Album._set_ok_price i j a 0 hraw h
    · have hraw : (if ((jget j "collectionPrice").getD (JVal.num 0)).truthy = true
                   then (jget j "collectionPrice").getD (JVal.num 0)
                   else JVal.num 0) = JVal.num q := by
        rw [hq]
        simp [JVal.truthy, hq0]
      exact Album._set_ok_price i j a q hraw h

/-- Witness for C5 at the concrete collection record with price 3.996
(= 3996/1000): the stored price is 3.9960, unchanged by 4-decimal rounding. -/
theorem itunes_album_price_witness :
    Album._set (.num 9) collectionRec = .ok albumOfRec ∧
    albumOfRec.price = JVal.num (mkRat 3996 1000) := by
  have h : Album._set (.num 9) collectionRec = .ok albumOfRec := by decide
  refine ⟨h, ?_⟩
  have h2 := (itunes_album_price_spec (.num 9) collectionRec albumOfRec h).2
    (mkRat 3996 1000) (by decide)
  rw [h2]
  decide

/-- C6: for any two result objects, `Item.__eq__` holds exactly when the
`id` attributes are equal, whatever the other fields hold. -/
theorem itunes_item_eq_iff_id (x y : PyObj) :
    Item.eq x (some y) = true ↔ x.pyId = y.pyId := by
  simp [Item.eq]

/-- Witness for C6: two objects built from records sharing only the
identifier 42 compare equal under `__eq__` although they differ as objects
in every other field. -/
theorem itunes_item_eq_witness :
    Item.eq itemSameId1 (some itemSameId2) = true ∧ itemSameId1 ≠ itemSameId2 :=
  ⟨(itunes_item_eq_iff_id itemSameId1 itemSameId2).mpr (by decide), by decide⟩

/-- C7: the `Search` parameter mapping contains an `offset` key exactly when
the offset is positive; a zero or negative offset is omitted entirely. -/
theorem itunes_search_offset_iff (query country media entity attrib : JVal)
    (offset : ℤ) (limit : JVal) (order : Option JVal)
    (lang version explicit : JVal) :
    ("offset" ∈ (Search.searchTerms query country media entity attrib offset
        limit order lang version explicit).map Prod.fst) ↔ 0 < offset := by
  unfold Search.searchTerms
  by_cases he : entity.truthy = true <;> by_cases hat : attrib.truthy = true <;>
    cases order <;> by_cases ho : 0 < offset <;>
      simp [he, hat, ho]

/-- Witness for C7: offset 5 appears in the mapping, offset 0 does not. -/
theorem itunes_search_offset_witness :
    ("offset" ∈ (Search.searchTerms (.str "q") (.str "US") (.str "all")
        JVal.null JVal.null 5 (.num 50) none (.str "en_us") (.str "2")
        (.str "Yes")).map Prod.fst) ∧
    ¬ ("offset" ∈ (Search.searchTerms (.str "q") (.str "US") (.str "all")
        JVal.null JVal.null 0 (.num 50) none (.str "en_us") (.str "2")
        (.str "Yes")).map Prod.fst) :=
  ⟨(itunes_search_offset_iff (.str "q") (.str "US") (.str "all") JVal.null
      JVal.null 5 (.num 50) none (.str "en_us") (.str "2") (.str "Yes")).mpr
      (by decide),
   fun hmem => absurd ((itunes_search_offset_iff (.str "q") (.str "US")
      (.str "all") JVal.null JVal.null 0 (.num 50) none (.str "en_us")
      (.str "2") (.str "Yes")).mp hmem) (by decide)⟩

/-- C9: comparing any result object against `None` yields `False` for both
`__eq__` and `__ne__` (the latter returns `False`, not `True`), so `!=` is
not the negation of `==` in this case. -/
theorem itunes_item_none_compare (x : PyObj) :
    Item.eq x none = false ∧ Item.ne x none = false ∧
    Item.ne x none ≠ !(Item.eq x none) :=
  ⟨rfl, rfl, fun h => Bool.noConfusion h⟩

/-- C10 (amended): populating a `Track` from a record with no `collectionId`
key leaves the `album` attribute unset (not `None`); `album` is `None`
exactly when `collectionId` is present and populating the `Album` raises a
`KeyError`; `album` is a populated `Album` exactly when `collectionId` is
present and the `Album` population succeeds. -/
theorem itunes_track_album_attr_spec (i : JVal) (j : Json) (t : TrackData)
    (h : Track._set i j = .ok t) :
    (jget j "collectionId" = none → t.album = AlbumAttr.unset) ∧
    (t.album = AlbumAttr.pyNone ↔
       ∃ cid, jget j "collectionId" = some cid ∧
         ∃ k, Album._set cid j = .error (.keyError k)) ∧
    (∀ a, t.album = AlbumAttr.set a ↔
       ∃ cid, jget j "collectionId" = some cid ∧ Album._set cid j = .ok a) := by
  obtain ⟨h1, h2⟩ := Track._set_album_cases i j t h
  refine ⟨h1, ⟨?_, ?_⟩, fun a => ⟨?_, ?_⟩⟩
  · intro hp
    cases hcid : jget j "collectionId" with
    | none => rw [h1 hcid] at hp; exact AlbumAttr.noConfusion hp
    | some cid =>
      rcases h2 cid hcid with ⟨a, hA, ht⟩ | ⟨k, hA, ht⟩
      · rw [ht] at hp; exact AlbumAttr.noConfusion hp
      · exact ⟨cid, rfl, k, hA⟩
  · rintro ⟨cid, hcid, k, hA⟩
    rcases h2 cid hcid with ⟨a, hA', ht⟩ | ⟨k', hA', ht⟩
    · exact absurd (hA'.symm.trans hA) (fun hh => Except.noConfusion hh)
    · exact ht
  · intro hset
    cases hcid : jget j "collectionId" with
    | none => rw [h1 hcid] at hset; exact AlbumAttr.noConfusion hset
    | some cid =>
      rcases h2 cid hcid with ⟨a', hA, ht⟩ | ⟨k, hA, ht⟩
      · rw [ht] at hset
        injection hset with haa
        subst haa
        exact ⟨cid, rfl, hA⟩
      · rw [ht] at hset; exact AlbumAttr.noConfusion hset
  · rintro ⟨cid, hcid, hA⟩
    rcases h2 cid hcid with ⟨a', hA', ht⟩ | ⟨k, hA', ht⟩
    · have haa := Except.ok.inj (hA'.symm.trans hA)
      rw [ht, haa]
    · exact absurd (hA'.symm.trans hA) (fun hh => Except.noConfusion hh)

/-- Witness for C10 at the concrete track record whose album population
fails on `collectionName`: the populated track's `album` is `None`. -/
theorem itunes_track_album_witness :
    Track._set (.num 3) trkNoAlbumNameRec = .ok trackOfRec ∧
    trackOfRec.album = AlbumAttr.pyNone := by
  have h : Track._set (.num 3) trkNoAlbumNameRec = .ok trackOfRec := by decide
  refine ⟨h, ?_⟩
  exact (itunes_track_album_attr_spec (.num 3) trkNoAlbumNameRec trackOfRec
    h).2.1.mpr ⟨.num 7, by decide, "collectionName", by decide⟩

/-- Counterexample to C10 as stated ("a populated Album exactly when
collectionId is present"): this record has `collectionId` 7, yet the
track's `album` is `None`, because the `Album` population raised `KeyError`
on the missing `collectionName`. -/
theorem itunes_track_album_counterexample :
    jget trkNoAlbumNameRec "collectionId" = some (.num 7) ∧
    Track._set (.num 3) trkNoAlbumNameRec = .ok trackOfRec ∧
    trackOfRec.album = AlbumAttr.pyNone ∧
    ∀ a, trackOfRec.album ≠ AlbumAttr.set a := by
  refine ⟨by decide, by decide, by decide, ?_⟩
  intro a ha
  have hpn : trackOfRec.album = AlbumAttr.pyNone := by decide
  rw [hpn] at ha
  exact AlbumAttr.noConfusion ha

/-- Witness for C9 at a concrete object: both comparisons against `None`
evaluate to `False`. -/
theorem itunes_item_none_compare_witness :
    Item.eq selfSong none = false ∧ Item.ne selfSong none = false ∧
    Item.ne selfSong none ≠ !(Item.eq selfSong none) :=
  itunes_item_none_compare selfSong
